import Mathlib

/-!
Verification of the eqo seismic-alert ingestion engine.

This file gives a shallow embedding of the pure computational core of the
repository and proves the specified properties about it:

* the PEWS binary station-telemetry decoder (`src/pages/api/kma.ts`:
  `BitReader`, `fetchMMIData`, `fetchStations`);
* the scraped KMA HTML-table feed parser (`src/pages/api/kma.ts`:
  `parseKstToIsoUtc`, `parseLat`, `parseLng` and the row loop of `handler`);
* the p2pquake ingestion / reconciliation state transitions
  (`src/components/WaveOverlay.tsx`: `ingestP2pquakePayload` and the
  `connectWebSocket` message handler);
* the cross-tab leader lock (`acquireWolfxLock`, `refreshWolfxLock`);
* the shared exponential backoff of the three wolfx push connectors
  (`connectWolfx`, `wolfxBackoffMsRef`);
* the tsunami warning-grade resolution shown by the page
  (`pages/index` Sidebar `tsunamiWarning` prop).

Byte buffers are embedded as `List Nat` (each entry one byte), JavaScript
numbers used for coordinates as `ℚ` (all arithmetic performed on them in the
source is exact decimal arithmetic), and timestamps as `Int` milliseconds.
-/

/-! ## Binary telemetry decoder (`src/pages/api/kma.ts`) -/

/-- One bit of the byte buffer, as extracted by `BitReader.readBits`:
`(this.buffer[byteIndex] >> (7 - bitOffset % 8)) & 1` with
`byteIndex = bitOffset / 8`.  Out-of-range byte reads yield `0`
(in JS, `undefined >> k` is `0`). -/
def bitAt (buf : List Nat) (off : Nat) : Nat :=
  ((buf.getD (off / 8) 0) >>> (7 - off % 8)) &&& 1

/-- `readBits buf off n` is the value returned by `BitReader.readBits(n)`
when the reader's `bitOffset` is `off`: bits are consumed most significant
first and accumulated by `value = (value << 1) | bit`. -/
def readBits (buf : List Nat) (off n : Nat) : Nat :=
  (List.range n).foldl (fun v i => (v <<< 1) ||| bitAt buf (off + i)) 0

theorem bitAt_lt_two (buf : List Nat) (off : Nat) : bitAt buf off < 2 :=
  Nat.lt_succ_of_le (Nat.and_le_right)

theorem readBits_succ (buf : List Nat) (off n : Nat) :
    readBits buf off (n + 1) = (readBits buf off n) <<< 1 ||| bitAt buf (off + n) := by
  unfold readBits
  rw [List.range_succ, List.foldl_append]
  rfl

theorem readBits_lt (buf : List Nat) (off n : Nat) : readBits buf off n < 2 ^ n := by
  induction n with
  | zero => simp [readBits]
  | succ n ih =>
      rw [readBits_succ]
      have hb : bitAt buf (off + n) < 2 ^ 1 := by
        simpa using bitAt_lt_two buf (off + n)
      simpa [Nat.add_comm] using Nat.append_lt hb ih

/-- Pure decode part of `fetchMMIData`: skip the 32-bit header, then read one
4-bit intensity value per station, `floor((totalBits − 32) / 4)` stations in
total (`totalStations = Math.floor(((buffer.length * 8) - 32) / 4)`). -/
def fetchMMIData (buf : List Nat) : List Nat :=
  (List.range ((buf.length * 8 - 32) / 4)).map (fun i => readBits buf (32 + 4 * i) 4)

/-- The decoder's station record (`interface Station` in `kma.ts`). -/
structure Station where
  id : Nat
  latitude : ℚ
  longitude : ℚ
  name : String
  mmi : Nat
deriving DecidableEq

/-- Raw decoded latitude of record `i`: `30 + latBits / 100` where `latBits`
is the 10-bit field at bit offset `20 * i` (the reader starts at bit 0 of the
coordinate buffer). -/
def rawLat (buf : List Nat) (i : Nat) : ℚ :=
  30 + (readBits buf (20 * i) 10 : ℚ) / 100

/-- Raw decoded longitude of record `i`: `120 + lonBits / 100` where
`lonBits` is the 10-bit field following the latitude field. -/
def rawLon (buf : List Nat) (i : Nat) : ℚ :=
  120 + (readBits buf (20 * i + 10) 10 : ℚ) / 100

/-- The Ulleungdo correction box of `fetchStations`:
`lat >= 37.0 && lat <= 38.0 && lon >= 120.0 && lon <= 121.0`. -/
def inUlleungdoBox (lat lon : ℚ) : Prop :=
  37 ≤ lat ∧ lat ≤ 38 ∧ 120 ≤ lon ∧ lon ≤ 121

instance (lat lon : ℚ) : Decidable (inUlleungdoBox lat lon) := by
  unfold inUlleungdoBox; infer_instance

/-- One iteration of the station loop of `fetchStations`: decode the two
10-bit fields of record `i`, apply the Ulleungdo longitude fix, and attach
`mmiData[i]` when the intensity table is present and long enough, else `0`
(`mmiData && i < mmiData.length ? mmiData[i] : 0`). -/
def decodeStation (buf : List Nat) (mmiData : Option (List Nat)) (i : Nat) : Station :=
  let lat := rawLat buf i
  let lon0 := rawLon buf i
  let lon := if inUlleungdoBox lat lon0 then lon0 + 10 else lon0
  let mmi := match mmiData with
    | some m => if i < m.length then m.getD i 0 else 0
    | none => 0
  { id := i + 1, latitude := lat, longitude := lon,
    name := "STN-" ++ toString (i + 1), mmi := mmi }

/-- `fetchStations`, with the two network fetches abstracted to `Option`
arguments: `coordBuf = none` models a failed `.s` fetch (the surrounding
`try` rethrows, so the whole call fails), and `mmiData = none` models the
`fetchMMIData(timestamp).catch(... return null)` fallback.  On a successful
coordinate fetch the loop runs
`totalStations = Math.floor((buffer.length * 8) / 20)` times, reading from
bit offset 0 (no header skip in this decoder). -/
def fetchStations (coordBuf : Option (List Nat)) (mmiData : Option (List Nat)) :
    Option (List Station) :=
  coordBuf.map (fun buf =>
    (List.range (buf.length * 8 / 20)).map (decodeStation buf mmiData))

/-- The coordinate-buffer station count as the specification states it
(stated for comparison with the decoder, which uses
`buf.length * 8 / 20`): `floor((totalBits − 32) / 20)`. -/
def claimedStationCount (buf : List Nat) : Nat :=
  (buf.length * 8 - 32) / 20

theorem fetchStations_length (buf : List Nat) (mmiData : Option (List Nat)) :
    ∃ l, fetchStations (some buf) mmiData = some l ∧ l.length = buf.length * 8 / 20 := by
  refine ⟨_, rfl, ?_⟩
  simp [List.length_map, List.length_range]

theorem fetchStations_get (buf : List Nat) (mmiData : Option (List Nat))
    (l : List Station) (hl : fetchStations (some buf) mmiData = some l)
    (i : Nat) (h : i < l.length) : l[i] = decodeStation buf mmiData i := by
  have hmap : l = (List.range (buf.length * 8 / 20)).map (decodeStation buf mmiData) := by
    simpa [fetchStations] using hl.symm
  subst hmap
  simp

/-- C1 (counterexample to the claim as stated): for the 4-byte (32-bit)
coordinate buffer `[0,0,0,0]`, the claim predicts
`floor((32 − 32) / 20) = 0` stations after a 32-bit header skip, but the
decoder skips no header and emits `floor(32 / 20) = 1` station, decoded from
the first 20 bits of the buffer. -/
theorem C1_counterexample :
    (fetchStations (some [0, 0, 0, 0]) none).map List.length = some 1 ∧
    claimedStationCount [0, 0, 0, 0] = 0 := by
  constructor
  · rfl
  · rfl

/-- C1 (amended): the coordinate decoder skips no header: for a coordinate
buffer of `totalBits` bits it yields exactly `floor(totalBits / 20)` station
records, record `i` being decoded from the 20-bit group at bit offset
`20 * i` (10-bit unsigned latitude field, then 10-bit unsigned longitude
field, most-significant-bit-first) as `latitude = 30 + latBits / 100` and
`longitude = 120 + lonBits / 100`, to which the Ulleungdo box correction is
then applied.  (The 32-bit header skip exists only in the intensity-buffer
decoder `fetchMMIData`.) -/
theorem C1_amended_decode (buf : List Nat) (mmiData : Option (List Nat)) :
    ∃ l, fetchStations (some buf) mmiData = some l ∧
      l.length = buf.length * 8 / 20 ∧
      ∀ i, ∀ h : i < l.length,
        l[i].id = i + 1 ∧
        readBits buf (20 * i) 10 < 2 ^ 10 ∧
        readBits buf (20 * i + 10) 10 < 2 ^ 10 ∧
        l[i].latitude = 30 + (readBits buf (20 * i) 10 : ℚ) / 100 ∧
        l[i].longitude =
          (if inUlleungdoBox (rawLat buf i) (rawLon buf i)
           then (120 + (readBits buf (20 * i + 10) 10 : ℚ) / 100) + 10
           else 120 + (readBits buf (20 * i + 10) 10 : ℚ) / 100) := by
  obtain ⟨l, hl, hlen⟩ := fetchStations_length buf mmiData
  refine ⟨l, hl, hlen, ?_⟩
  intro i h
  rw [fetchStations_get buf mmiData l hl i h]
  refine ⟨rfl, readBits_lt _ _ _, readBits_lt _ _ _, rfl, ?_⟩
  simp only [decodeStation, rawLat, rawLon]

/-- C1 witness: the amended decode theorem evaluated at a concrete 5-byte
buffer (40 bits, hence exactly 2 records). -/
theorem C1_amended_decode_witness :
    ∃ l, fetchStations (some [1, 2, 3, 4, 5]) none = some l ∧
      l.length = [1, 2, 3, 4, 5].length * 8 / 20 ∧
      ∀ i, ∀ h : i < l.length,
        l[i].id = i + 1 ∧
        readBits [1, 2, 3, 4, 5] (20 * i) 10 < 2 ^ 10 ∧
        readBits [1, 2, 3, 4, 5] (20 * i + 10) 10 < 2 ^ 10 ∧
        l[i].latitude = 30 + (readBits [1, 2, 3, 4, 5] (20 * i) 10 : ℚ) / 100 ∧
        l[i].longitude =
          (if inUlleungdoBox (rawLat [1, 2, 3, 4, 5] i) (rawLon [1, 2, 3, 4, 5] i)
           then (120 + (readBits [1, 2, 3, 4, 5] (20 * i + 10) 10 : ℚ) / 100) + 10
           else 120 + (readBits [1, 2, 3, 4, 5] (20 * i + 10) 10 : ℚ) / 100) :=
  C1_amended_decode [1, 2, 3, 4, 5] none

/-- C8: for every decoded station, the decoded latitude is kept unchanged and
the longitude is increased by exactly 10 if and only if the pre-correction
decoded position `(rawLat, rawLon)` lies in the box
`[37,38] × [120,121]`; outside the box the longitude is kept unchanged. -/
theorem C8_ulleungdo_correction (buf : List Nat) (mmiData : Option (List Nat)) (i : Nat) :
    (decodeStation buf mmiData i).latitude = rawLat buf i ∧
    ((decodeStation buf mmiData i).longitude = rawLon buf i + 10 ↔
      inUlleungdoBox (rawLat buf i) (rawLon buf i)) ∧
    (¬ inUlleungdoBox (rawLat buf i) (rawLon buf i) →
      (decodeStation buf mmiData i).longitude = rawLon buf i) := by
  refine ⟨rfl, ?_, ?_⟩
  · simp only [decodeStation]
    by_cases hbox : inUlleungdoBox (rawLat buf i) (rawLon buf i)
    · simp [hbox]
    · simp only [hbox, if_false, iff_false]
      intro hEq
      have h10 : (10 : ℚ) = 0 := by linarith
      norm_num at h10
  · intro hbox
    simp [decodeStation, hbox]

/-- C7: failure policy of the paired binary fetches.  If the coordinate
fetch fails the whole decode fails and yields no stations; if only the
intensity fetch fails every station's `mmi` defaults to `0`; when the
intensity table is present, station `i` is paired with `intensity[i]` by
positional index (falling back to `0` past the end of the table). -/
theorem C7_failure_policy (buf mmi : List Nat) :
    fetchStations none (some mmi) = none ∧
    fetchStations none none = none ∧
    (∃ l, fetchStations (some buf) none = some l ∧ ∀ s ∈ l, s.mmi = 0) ∧
    (∃ l, fetchStations (some buf) (some mmi) = some l ∧
      l.length = buf.length * 8 / 20 ∧
      ∀ i, ∀ h : i < l.length,
        (∀ hm : i < mmi.length, l[i].mmi = mmi[i]) ∧
        (mmi.length ≤ i → l[i].mmi = 0)) := by
  refine ⟨rfl, rfl, ?_, ?_⟩
  · obtain ⟨l, hl, _⟩ := fetchStations_length buf none
    refine ⟨l, hl, ?_⟩
    intro s hs
    obtain ⟨i, h, rfl⟩ := List.mem_iff_get.mp hs
    rw [show l.get i = l[i.1] from rfl, fetchStations_get buf none l hl i.1 i.2]
    rfl
  · obtain ⟨l, hl, hlen⟩ := fetchStations_length buf (some mmi)
    refine ⟨l, hl, hlen, ?_⟩
    intro i h
    rw [fetchStations_get buf (some mmi) l hl i h]
    constructor
    · intro hm
      simp [decodeStation, hm, List.getD_eq_getElem]
    · intro hm
      have : ¬ i < mmi.length := Nat.not_lt.mpr hm
      simp [decodeStation, this]

/-- C7 witness: the failure-policy theorem at a concrete coordinate buffer
and intensity table. -/
theorem C7_failure_policy_witness :
    fetchStations none (some [3]) = none ∧
    fetchStations none none = none ∧
    (∃ l, fetchStations (some [1, 2, 3, 4, 5]) none = some l ∧ ∀ s ∈ l, s.mmi = 0) ∧
    (∃ l, fetchStations (some [1, 2, 3, 4, 5]) (some [3]) = some l ∧
      l.length = [1, 2, 3, 4, 5].length * 8 / 20 ∧
      ∀ i, ∀ h : i < l.length,
        (∀ hm : i < [3].length, l[i].mmi = [3][i]) ∧
        ([3].length ≤ i → l[i].mmi = 0)) :=
  C7_failure_policy [1, 2, 3, 4, 5] [3]

/-! ## p2pquake ingestion and reconciliation (`src/components/WaveOverlay.tsx`) -/

/-- One tsunami forecast area (an entry of `areas` in a code-552 message).
`grade` is kept as the raw grade string the handlers compare against.  A
missing `name` is embedded as `""` (JavaScript treats the empty string and
a missing field alike as falsy in `areas[0] && areas[0].name`). -/
structure TsunamiArea where
  name : String
  grade : String
deriving DecidableEq

/-- A code-552 tsunami message: the fields of `TsunamiData` the engine
reads.  `time` is epoch milliseconds. -/
structure TsunamiData where
  code : Nat
  time : Int
  cancelled : Bool
  areas : List TsunamiArea
deriving DecidableEq

/-- A code-551 earthquake record: the fields of `EarthquakeData` the engine
reads or writes (`time` as epoch milliseconds, coordinates as `ℚ`). -/
structure EarthquakeData where
  time : Int
  maxScale : Int
  domesticTsunami : String
  hypoName : String
  hypoLatitude : ℚ
  hypoLongitude : ℚ
  hypoDepth : ℚ
  hypoMagnitude : ℚ
  freeFormComment : String
  syntheticFromTsunami : Bool
deriving DecidableEq

/-- A code-556 EEW message.  Its payload is irrelevant to the claims proved
here; only the fact that it replaces `eewData` wholesale matters. -/
structure EEWData where
  time : Int
deriving DecidableEq

/-- The provider's store: the `earthquakeData` list (most-recent-first), the
current EEW record and the current tsunami record. -/
structure FeedState where
  earthquakeData : List EarthquakeData
  eewData : Option EEWData
  tsunamiData : Option TsunamiData
deriving DecidableEq

/-- One incoming p2pquake message, discriminated by its integer `code`
field exactly as the handlers do: 551 quake, 556 EEW, 552 tsunami;
`other` covers non-objects and unknown codes, which are ignored. -/
inductive P2pMessage where
  | quake (q : EarthquakeData)
  | eew (e : EEWData)
  | tsunami (t : TsunamiData)
  | other
deriving DecidableEq

/-- The rolling-window insert used for code-551 records in
`ingestP2pquakePayload`: drop stored entries older than the cutoff
(`prev.filter(item => new Date(item.time) >= twoDaysAgo)`), prepend the new
record, and cap the list at 50 (`.slice(0, 50)`).  `cutoff` embeds the
`twoDaysAgo` value (midnight of the day two days before now). -/
def insertQuake (cutoff : Int) (q : EarthquakeData) (prev : List EarthquakeData) :
    List EarthquakeData :=
  (q :: prev.filter (fun item => cutoff ≤ item.time)).take 50

/-- The placeholder quake synthesized from a non-cancelled code-552 message
by `ingestP2pquakePayload`: located at the first affected area's name
(falling back to `"沿岸海域"`), fixed hypocenter (35, 139), depth 10,
magnitude 3.0, `maxScale` 0, `domesticTsunami` derived from the areas'
grades, a fixed comment, and the `syntheticFromTsunami` mark. -/
def syntheticQuake (now : Int) (tsu : TsunamiData) : EarthquakeData :=
  let firstName := match tsu.areas with
    | [] => "沿岸海域"
    | a :: _ => if a.name = "" then "沿岸海域" else a.name
  let hasWarning := tsu.areas.any (fun a => a.grade == "Warning")
  let hasWatch := tsu.areas.any (fun a => a.grade == "Watch")
  let domesticTsunami := if hasWarning then "Warning" else if hasWatch then "Watch" else "None"
  { time := now, maxScale := 0, domesticTsunami := domesticTsunami,
    hypoName := firstName, hypoLatitude := 35, hypoLongitude := 139,
    hypoDepth := 10, hypoMagnitude := 3,
    freeFormComment := "津波情報に基づくテスト用の仮想地震です。",
    syntheticFromTsunami := true }

/-- `handleOne` of `ingestP2pquakePayload`: a code-551 record is inserted
through the rolling window; a code-556 record replaces `eewData`; a code-552
record replaces `tsunamiData` and, when not cancelled, additionally inserts
the synthesized placeholder quake; anything else is ignored. -/
def handleOne (now cutoff : Int) (st : FeedState) (m : P2pMessage) : FeedState :=
  match m with
  | .quake q => { st with earthquakeData := insertQuake cutoff q st.earthquakeData }
  | .eew e => { st with eewData := some e }
  | .tsunami t =>
      if t.cancelled then { st with tsunamiData := some t }
      else
        { st with tsunamiData := some t,
                  earthquakeData := insertQuake cutoff (syntheticQuake now t) st.earthquakeData }
  | .other => st

/-- `ingestP2pquakePayload`: an array payload is handled item by item in
order; a single-object payload is the one-element case. -/
def ingestP2pquakePayload (now cutoff : Int) (st : FeedState) (payload : List P2pMessage) :
    FeedState :=
  payload.foldl (handleOne now cutoff) st

/-- The `connectWebSocket` `onmessage` handler: a code-551 record drops
stale entries and is prepended — with no 50-entry cap on this path — while
codes 556 and 552 replace the respective record wholesale.  The
notification-sound bookkeeping (`lastPlayedSoundTime` in `localStorage`)
does not affect the store and is omitted. -/
def wsOnMessage (cutoff : Int) (st : FeedState) (m : P2pMessage) : FeedState :=
  match m with
  | .quake q =>
      { st with earthquakeData :=
          q :: st.earthquakeData.filter (fun item => cutoff ≤ item.time) }
  | .eew e => { st with eewData := some e }
  | .tsunami t => { st with tsunamiData := some t }
  | .other => st

/-- C2: ingesting a payload carrying one non-cancelled tsunami message and
no quake message synthesizes exactly one placeholder quake — the new head
of the recent-event list, the tail being the filtered previous entries —
flagged `syntheticFromTsunami`, located at the first affected area's name,
with fixed low placeholder magnitude 3.0 and depth 10, and a comment noting
it derives from tsunami data; a cancelled tsunami message synthesizes
nothing. -/
theorem C2_tsunami_synthesis (now cutoff : Int) (st : FeedState) (t : TsunamiData)
    (a : TsunamiArea) (rest : List TsunamiArea)
    (hareas : t.areas = a :: rest) (hname : a.name ≠ "") :
    (t.cancelled = false →
      (ingestP2pquakePayload now cutoff st [.tsunami t]).earthquakeData =
        (syntheticQuake now t ::
          st.earthquakeData.filter (fun item => cutoff ≤ item.time)).take 50 ∧
      (syntheticQuake now t).syntheticFromTsunami = true ∧
      (syntheticQuake now t).hypoName = a.name ∧
      (syntheticQuake now t).hypoMagnitude = 3 ∧
      (syntheticQuake now t).hypoDepth = 10 ∧
      (syntheticQuake now t).freeFormComment = "津波情報に基づくテスト用の仮想地震です。" ∧
      (ingestP2pquakePayload now cutoff st [.tsunami t]).tsunamiData = some t ∧
      (ingestP2pquakePayload now cutoff st [.tsunami t]).eewData = st.eewData) ∧
    (t.cancelled = true →
      (ingestP2pquakePayload now cutoff st [.tsunami t]).earthquakeData =
        st.earthquakeData ∧
      (ingestP2pquakePayload now cutoff st [.tsunami t]).tsunamiData = some t) := by
  constructor
  · intro hc
    refine ⟨?_, rfl, ?_, rfl, rfl, rfl, ?_, ?_⟩
    · simp [ingestP2pquakePayload, handleOne, hc, insertQuake]
    · simp [syntheticQuake, hareas, hname]
    · simp [ingestP2pquakePayload, handleOne, hc]
    · simp [ingestP2pquakePayload, handleOne, hc]
  · intro hc
    constructor <;> simp [ingestP2pquakePayload, handleOne, hc]

/-- C2 witness: the synthesis theorem at a concrete non-cancelled tsunami
message with a single `Watch` area and an empty store. -/
theorem C2_tsunami_synthesis_witness :
    ((⟨552, 0, false, [⟨"太平洋沿岸", "Watch"⟩]⟩ : TsunamiData).cancelled = false →
      (ingestP2pquakePayload 0 0 ⟨[], none, none⟩
          [.tsunami ⟨552, 0, false, [⟨"太平洋沿岸", "Watch"⟩]⟩]).earthquakeData =
        (syntheticQuake 0 ⟨552, 0, false, [⟨"太平洋沿岸", "Watch"⟩]⟩ ::
          ([] : List EarthquakeData).filter (fun item => 0 ≤ item.time)).take 50 ∧
      (syntheticQuake 0 ⟨552, 0, false, [⟨"太平洋沿岸", "Watch"⟩]⟩).syntheticFromTsunami = true ∧
      (syntheticQuake 0 ⟨552, 0, false, [⟨"太平洋沿岸", "Watch"⟩]⟩).hypoName = "太平洋沿岸" ∧
      (syntheticQuake 0 ⟨552, 0, false, [⟨"太平洋沿岸", "Watch"⟩]⟩).hypoMagnitude = 3 ∧
      (syntheticQuake 0 ⟨552, 0, false, [⟨"太平洋沿岸", "Watch"⟩]⟩).hypoDepth = 10 ∧
      (syntheticQuake 0 ⟨552, 0, false, [⟨"太平洋沿岸", "Watch"⟩]⟩).freeFormComment =
        "津波情報に基づくテスト用の仮想地震です。" ∧
      (ingestP2pquakePayload 0 0 ⟨[], none, none⟩
          [.tsunami ⟨552, 0, false, [⟨"太平洋沿岸", "Watch"⟩]⟩]).tsunamiData =
        some ⟨552, 0, false, [⟨"太平洋沿岸", "Watch"⟩]⟩ ∧
      (ingestP2pquakePayload 0 0 ⟨[], none, none⟩
          [.tsunami ⟨552, 0, false, [⟨"太平洋沿岸", "Watch"⟩]⟩]).eewData = none) ∧
    ((⟨552, 0, false, [⟨"太平洋沿岸", "Watch"⟩]⟩ : TsunamiData).cancelled = true →
      (ingestP2pquakePayload 0 0 ⟨[], none, none⟩
          [.tsunami ⟨552, 0, false, [⟨"太平洋沿岸", "Watch"⟩]⟩]).earthquakeData = [] ∧
      (ingestP2pquakePayload 0 0 ⟨[], none, none⟩
          [.tsunami ⟨552, 0, false, [⟨"太平洋沿岸", "Watch"⟩]⟩]).tsunamiData =
        some ⟨552, 0, false, [⟨"太平洋沿岸", "Watch"⟩]⟩) :=
  C2_tsunami_synthesis 0 0 ⟨[], none, none⟩ ⟨552, 0, false, [⟨"太平洋沿岸", "Watch"⟩]⟩
    ⟨"太平洋沿岸", "Watch"⟩ [] rfl (by decide)

/-- C5 (counterexample to the claim as stated): the WebSocket `onmessage`
insert path applies no 50-entry cap — inserting a code-551 record into a
store already holding 50 in-window entries yields 51 entries, where the
claim requires at most 50. -/
theorem C5_counterexample :
    ((wsOnMessage 0
        ⟨List.replicate 50 ⟨0, 0, "None", "", 0, 0, 0, 0, "", false⟩, none, none⟩
        (.quake ⟨1, 0, "None", "", 0, 0, 0, 0, "", false⟩)).earthquakeData).length = 51 := by
  rfl

/-- C5 (amended): on a code-551 insert through `ingestP2pquakePayload`, all
stored entries older than the window cutoff are dropped, the new event is
prepended, and the result is capped at 50 most-recent-first; the WebSocket
`onmessage` path likewise drops stale entries and prepends, but applies no
cap.  On either path every entry of the resulting list other than the new
event lies within the window, so an event older than the window is absent
after any subsequent insert. -/
theorem C5_window (now cutoff : Int) (st : FeedState) (q : EarthquakeData) :
    ((ingestP2pquakePayload now cutoff st [.quake q]).earthquakeData =
        (q :: st.earthquakeData.filter (fun item => cutoff ≤ item.time)).take 50) ∧
    ((ingestP2pquakePayload now cutoff st [.quake q]).earthquakeData.length ≤ 50) ∧
    ((ingestP2pquakePayload now cutoff st [.quake q]).earthquakeData.head? = some q) ∧
    (∀ e ∈ (ingestP2pquakePayload now cutoff st [.quake q]).earthquakeData,
        e = q ∨ cutoff ≤ e.time) ∧
    ((wsOnMessage cutoff st (.quake q)).earthquakeData =
        q :: st.earthquakeData.filter (fun item => cutoff ≤ item.time)) ∧
    (∀ e ∈ (wsOnMessage cutoff st (.quake q)).earthquakeData,
        e = q ∨ cutoff ≤ e.time) := by
  have hmem : ∀ e ∈ q :: st.earthquakeData.filter (fun item => cutoff ≤ item.time),
      e = q ∨ cutoff ≤ e.time := by
    intro e he
    rcases List.mem_cons.mp he with h | h
    · exact Or.inl h
    · exact Or.inr (by simp at h; exact h.2)
  refine ⟨rfl, ?_, ?_, ?_, rfl, hmem⟩
  · exact List.length_take_le 50
      (q :: st.earthquakeData.filter (fun item => cutoff ≤ item.time))
  · simp [ingestP2pquakePayload, handleOne, insertQuake, List.take_succ_cons]
  · intro e he
    have : e ∈ q :: st.earthquakeData.filter (fun item => cutoff ≤ item.time) := by
      have hsub := List.take_subset 50
        (q :: st.earthquakeData.filter (fun item => cutoff ≤ item.time))
      exact hsub (by simpa [ingestP2pquakePayload, handleOne, insertQuake] using he)
    exact hmem e this

/-- C5 witness: the window theorem at a concrete store holding one stale
and one fresh entry. -/
theorem C5_window_witness :
    ((ingestP2pquakePayload 5 100
        ⟨[⟨200, 0, "None", "", 0, 0, 0, 0, "", false⟩,
          ⟨50, 0, "None", "", 0, 0, 0, 0, "", false⟩], none, none⟩
        [.quake ⟨300, 0, "None", "", 0, 0, 0, 0, "", false⟩]).earthquakeData =
        ((⟨300, 0, "None", "", 0, 0, 0, 0, "", false⟩ : EarthquakeData) ::
          ([⟨200, 0, "None", "", 0, 0, 0, 0, "", false⟩,
            ⟨50, 0, "None", "", 0, 0, 0, 0, "", false⟩] : List EarthquakeData).filter
            (fun item => (100 : Int) ≤ item.time)).take 50) ∧
    ((ingestP2pquakePayload 5 100
        ⟨[⟨200, 0, "None", "", 0, 0, 0, 0, "", false⟩,
          ⟨50, 0, "None", "", 0, 0, 0, 0, "", false⟩], none, none⟩
        [.quake ⟨300, 0, "None", "", 0, 0, 0, 0, "", false⟩]).earthquakeData.length ≤ 50) ∧
    ((ingestP2pquakePayload 5 100
        ⟨[⟨200, 0, "None", "", 0, 0, 0, 0, "", false⟩,
          ⟨50, 0, "None", "", 0, 0, 0, 0, "", false⟩], none, none⟩
        [.quake ⟨300, 0, "None", "", 0, 0, 0, 0, "", false⟩]).earthquakeData.head? =
        some ⟨300, 0, "None", "", 0, 0, 0, 0, "", false⟩) ∧
    (∀ e ∈ (ingestP2pquakePayload 5 100
        ⟨[⟨200, 0, "None", "", 0, 0, 0, 0, "", false⟩,
          ⟨50, 0, "None", "", 0, 0, 0, 0, "", false⟩], none, none⟩
        [.quake ⟨300, 0, "None", "", 0, 0, 0, 0, "", false⟩]).earthquakeData,
        e = ⟨300, 0, "None", "", 0, 0, 0, 0, "", false⟩ ∨ (100 : Int) ≤ e.time) ∧
    ((wsOnMessage 100
        ⟨[⟨200, 0, "None", "", 0, 0, 0, 0, "", false⟩,
          ⟨50, 0, "None", "", 0, 0, 0, 0, "", false⟩], none, none⟩
        (.quake ⟨300, 0, "None", "", 0, 0, 0, 0, "", false⟩)).earthquakeData =
        (⟨300, 0, "None", "", 0, 0, 0, 0, "", false⟩ : EarthquakeData) ::
          ([⟨200, 0, "None", "", 0, 0, 0, 0, "", false⟩,
            ⟨50, 0, "None", "", 0, 0, 0, 0, "", false⟩] : List EarthquakeData).filter
            (fun item => (100 : Int) ≤ item.time)) ∧
    (∀ e ∈ (wsOnMessage 100
        ⟨[⟨200, 0, "None", "", 0, 0, 0, 0, "", false⟩,
          ⟨50, 0, "None", "", 0, 0, 0, 0, "", false⟩], none, none⟩
        (.quake ⟨300, 0, "None", "", 0, 0, 0, 0, "", false⟩)).earthquakeData,
        e = ⟨300, 0, "None", "", 0, 0, 0, 0, "", false⟩ ∨ (100 : Int) ≤ e.time) :=
  C5_window 5 100
    ⟨[⟨200, 0, "None", "", 0, 0, 0, 0, "", false⟩,
      ⟨50, 0, "None", "", 0, 0, 0, 0, "", false⟩], none, none⟩
    ⟨300, 0, "None", "", 0, 0, 0, 0, "", false⟩

/-! ## Tsunami grade resolution for display (`pages/index`, Sidebar prop) -/

/-- The four tsunami warning levels the sidebar can display
(`'none' | 'watch' | 'warning' | 'major_warning'`). -/
inductive TsunamiWarningLevel where
  | noneLevel
  | watch
  | warning
  | majorWarning
deriving DecidableEq

/-- The `tsunamiWarning` prop computed for the Sidebar in the page
component: for a present, code-552, non-cancelled tsunami record, the
first matching grade in the order `MajorWarning`, `Warning`, `Watch` over
the record's areas, and `'none'` otherwise.  (This prop appears after the
spread of the displayed data, so it is the value the Sidebar receives.) -/
def sidebarTsunamiWarning (td : Option TsunamiData) : TsunamiWarningLevel :=
  match td with
  | some t =>
      if t.code = 552 ∧ t.cancelled = false then
        if t.areas.any (fun a => a.grade == "MajorWarning") then .majorWarning
        else if t.areas.any (fun a => a.grade == "Warning") then .warning
        else if t.areas.any (fun a => a.grade == "Watch") then .watch
        else .noneLevel
      else .noneLevel
  | none => .noneLevel

/-- C6: the effective tsunami warning level shown for display is
`major_warning` if any area of the current code-552 record has grade
`MajorWarning`, else `warning` if any area has grade `Warning`, else
`watch` if any area has grade `Watch`, else `none`; a cancelled record
always resolves to `none` (as does an absent record). -/
theorem C6_grade_resolution (t : TsunamiData) (h : t.code = 552) :
    (t.cancelled = true → sidebarTsunamiWarning (some t) = .noneLevel) ∧
    (t.cancelled = false →
      sidebarTsunamiWarning (some t) =
        (if ∃ a ∈ t.areas, a.grade = "MajorWarning" then .majorWarning
         else if ∃ a ∈ t.areas, a.grade = "Warning" then .warning
         else if ∃ a ∈ t.areas, a.grade = "Watch" then .watch
         else .noneLevel)) ∧
    sidebarTsunamiWarning none = .noneLevel := by
  refine ⟨?_, ?_, rfl⟩
  · intro hc
    simp [sidebarTsunamiWarning, hc]
  · intro hc
    simp [sidebarTsunamiWarning, h, hc, List.any_eq_true]

/-- C6 witness: the grade-resolution theorem at a concrete non-cancelled
record carrying one `Warning` and one `Watch` area. -/
theorem C6_grade_resolution_witness :
    ((⟨552, 0, false, [⟨"a", "Warning"⟩, ⟨"b", "Watch"⟩]⟩ : TsunamiData).cancelled = true →
      sidebarTsunamiWarning (some ⟨552, 0, false, [⟨"a", "Warning"⟩, ⟨"b", "Watch"⟩]⟩) =
        .noneLevel) ∧
    ((⟨552, 0, false, [⟨"a", "Warning"⟩, ⟨"b", "Watch"⟩]⟩ : TsunamiData).cancelled = false →
      sidebarTsunamiWarning (some ⟨552, 0, false, [⟨"a", "Warning"⟩, ⟨"b", "Watch"⟩]⟩) =
        (if ∃ a ∈ (⟨552, 0, false, [⟨"a", "Warning"⟩, ⟨"b", "Watch"⟩]⟩ : TsunamiData).areas,
              a.grade = "MajorWarning" then .majorWarning
         else if ∃ a ∈ (⟨552, 0, false, [⟨"a", "Warning"⟩, ⟨"b", "Watch"⟩]⟩ : TsunamiData).areas,
              a.grade = "Warning" then .warning
         else if ∃ a ∈ (⟨552, 0, false, [⟨"a", "Warning"⟩, ⟨"b", "Watch"⟩]⟩ : TsunamiData).areas,
              a.grade = "Watch" then .watch
         else .noneLevel)) ∧
    sidebarTsunamiWarning none = .noneLevel :=
  C6_grade_resolution ⟨552, 0, false, [⟨"a", "Warning"⟩, ⟨"b", "Watch"⟩]⟩ rfl

/-! ## Cross-tab leader lock (`acquireWolfxLock` / `refreshWolfxLock`) -/

/-- The shared `wolfx_lock` record kept in `localStorage`:
`{ id: string; ts: number }` (heartbeat timestamp in epoch milliseconds). -/
structure LockRecord where
  id : String
  ts : Int
deriving DecidableEq

/-- `acquireWolfxLock`, as a function of the caller's id, the current time
and the shared record.  When no record exists or the stored heartbeat is
stale (`(now - parsed.ts) > 10000`) it writes `{myId, now}` and succeeds;
otherwise it leaves the record unchanged and succeeds exactly when the
stored owner is the caller (`parsed.id === myId`).  Returns
(result, updated shared record). -/
def acquireWolfxLock (myId : String) (now : Int) (st : Option LockRecord) :
    Bool × Option LockRecord :=
  match st with
  | none => (true, some ⟨myId, now⟩)
  | some r =>
      if now - r.ts > 10000 then (true, some ⟨myId, now⟩)
      else (r.id == myId, some r)

/-- `refreshWolfxLock`, as a function of the tab's lock id
(`wolfxLockIdRef.current`; `none` when the tab never ran an acquisition
attempt), the current time and the shared record: whenever the id is set it
rewrites the record to `{id, now}` unconditionally — there is no check that
the stored owner is still the caller. -/
def refreshWolfxLock (idRef : Option String) (now : Int) (st : Option LockRecord) :
    Option LockRecord :=
  match idRef with
  | none => st
  | some i => some ⟨i, now⟩

/-- C3 (counterexample to the claim as stated), at concrete inputs.
First, an acquisition by the current owner of a fresh record succeeds but
does not write `{selfId, now}`: the stored heartbeat stays `0` instead of
becoming `6000`.  Second, the refresh path rewrites the heartbeat although
the caller is not the stored owner: a tab holding id `"b"` overwrites
`"a"`'s fresh record. -/
theorem C3_counterexample :
    (acquireWolfxLock "a" 6000 (some ⟨"a", 0⟩)).1 = true ∧
    (acquireWolfxLock "a" 6000 (some ⟨"a", 0⟩)).2 = some ⟨"a", 0⟩ ∧
    (acquireWolfxLock "a" 6000 (some ⟨"a", 0⟩)).2 ≠ some ⟨"a", 6000⟩ ∧
    refreshWolfxLock (some "b") 7000 (some ⟨"a", 0⟩) = some ⟨"b", 7000⟩ := by
  refine ⟨?_, ?_, ?_, ?_⟩ <;> decide

/-- C3 (amended): `tryAcquire` succeeds exactly when no shared record
exists, the stored heartbeat is older than the 10-second staleness
threshold, or the stored owner id equals the caller's id; it writes
`{selfId, now}` exactly in the first two cases, and leaves the record
untouched when the caller already owns a fresh record.  The periodic
3-second refresh rewrites the heartbeat whenever the tab holds a lock id,
regardless of current ownership.  Restricted to acquisitions (no refresh
interleaved): while two candidates' heartbeats are within the threshold
only the first acquirer holds the lock, and a second acquirer succeeds
exactly once the threshold has elapsed without a refresh. -/
theorem C3_amended_lock (myId : String) (now : Int) (st : Option LockRecord)
    (a b : String) (t t' : Int) (hab : a ≠ b) :
    ((acquireWolfxLock myId now st).1 = true ↔
      st = none ∨ (∃ r, st = some r ∧ now - r.ts > 10000) ∨
        (∃ r, st = some r ∧ r.id = myId)) ∧
    ((st = none ∨ (∃ r, st = some r ∧ now - r.ts > 10000)) →
      (acquireWolfxLock myId now st).2 = some ⟨myId, now⟩) ∧
    ((∃ r, st = some r ∧ ¬ now - r.ts > 10000) →
      (acquireWolfxLock myId now st).2 = st) ∧
    (refreshWolfxLock (some myId) now st = some ⟨myId, now⟩) ∧
    ((acquireWolfxLock a t none).1 = true ∧
      (¬ t' - t > 10000 →
        (acquireWolfxLock b t' (acquireWolfxLock a t none).2).1 = false) ∧
      (t' - t > 10000 →
        (acquireWolfxLock b t' (acquireWolfxLock a t none).2).1 = true)) := by
  refine ⟨?_, ?_, ?_, rfl, rfl, ?_, ?_⟩
  · cases st with
    | none => simp [acquireWolfxLock]
    | some r =>
        by_cases h : now - r.ts > 10000
        · simp [acquireWolfxLock, h]
        · simp [acquireWolfxLock, h]
  · rintro (rfl | ⟨r, rfl, h⟩)
    · rfl
    · simp [acquireWolfxLock, h]
  · rintro ⟨r, rfl, h⟩
    simp [acquireWolfxLock, h]
  · intro h
    have hba : (a == b) = false := by
      simp [hab]
    simp [acquireWolfxLock, h, hba]
  · intro h
    simp [acquireWolfxLock, h]

/-- C3 witness: the amended lock theorem at concrete ids and times. -/
theorem C3_amended_lock_witness :
    ((acquireWolfxLock "x" 0 none).1 = true ↔
      (none : Option LockRecord) = none ∨
        (∃ r, (none : Option LockRecord) = some r ∧ (0 : Int) - r.ts > 10000) ∨
        (∃ r, (none : Option LockRecord) = some r ∧ r.id = "x")) ∧
    (((none : Option LockRecord) = none ∨
        (∃ r, (none : Option LockRecord) = some r ∧ (0 : Int) - r.ts > 10000)) →
      (acquireWolfxLock "x" 0 none).2 = some ⟨"x", 0⟩) ∧
    ((∃ r, (none : Option LockRecord) = some r ∧ ¬ (0 : Int) - r.ts > 10000) →
      (acquireWolfxLock "x" 0 none).2 = none) ∧
    (refreshWolfxLock (some "x") 0 none = some ⟨"x", 0⟩) ∧
    ((acquireWolfxLock "a" 0 none).1 = true ∧
      (¬ (20000 : Int) - 0 > 10000 →
        (acquireWolfxLock "b" 20000 (acquireWolfxLock "a" 0 none).2).1 = false) ∧
      ((20000 : Int) - 0 > 10000 →
        (acquireWolfxLock "b" 20000 (acquireWolfxLock "a" 0 none).2).1 = true)) :=
  C3_amended_lock "x" 0 none "a" "b" 0 20000 (by decide)

/-! ## Wolfx regional connectors: shared exponential backoff (`connectWolfx`) -/

/-- Identity of the three regional push sockets opened by `connectWolfx`. -/
inductive WolfxFeed where
  | jma
  | sc
  | fj
deriving DecidableEq

/-- The connection flags of `wolfxStatus` together with the shared
`wolfxBackoffMsRef` value — a single backoff variable used by the handlers
of all three sockets. -/
structure WolfxState where
  backoffMs : Nat
  jmaConnected : Bool
  scConnected : Bool
  fjConnected : Bool
deriving DecidableEq

/-- Set the connected flag of one socket in `wolfxStatus`. -/
def setConnected (f : WolfxFeed) (b : Bool) (st : WolfxState) : WolfxState :=
  match f with
  | .jma => { st with jmaConnected := b }
  | .sc => { st with scConnected := b }
  | .fj => { st with fjConnected := b }

/-- The `onopen` handler of any of the three sockets: mark the socket
connected and reset the shared backoff to 5000 ms
(`wolfxBackoffMsRef.current = 5000`). -/
def onWolfxOpen (f : WolfxFeed) (st : WolfxState) : WolfxState :=
  { setConnected f true st with backoffMs := 5000 }

/-- The `onclose` handler of any of the three sockets, with wolfx enabled:
mark the socket disconnected, schedule a reconnect after
`delay = Math.min(60000, wolfxBackoffMsRef.current * 2)` and store `delay`
back into the shared ref.  Returns (scheduled delay, new state). -/
def onWolfxClose (f : WolfxFeed) (st : WolfxState) : Nat × WolfxState :=
  let delay := min 60000 (st.backoffMs * 2)
  (delay, { setConnected f false st with backoffMs := delay })

/-- The shared backoff value after `n` consecutive closes starting from the
initial 5000 ms (`wolfxBackoffMsRef = useRef<number>(5000)`); for `n ≥ 1`
this is also the delay scheduled by the `n`-th close, as each close stores
the delay it schedules. -/
def delayAfterFailures : Nat → Nat
  | 0 => 5000
  | n + 1 => min 60000 (delayAfterFailures n * 2)

theorem delayAfterFailures_le (n : Nat) : delayAfterFailures n ≤ 60000 := by
  cases n with
  | zero => norm_num [delayAfterFailures]
  | succ n => exact min_le_left _ _

theorem delayAfterFailures_closed (n : Nat) :
    delayAfterFailures n = min 60000 (5000 * 2 ^ n) := by
  induction n with
  | zero => simp [delayAfterFailures]
  | succ n ih =>
      show min 60000 (delayAfterFailures n * 2) = _
      rw [ih, pow_succ]
      rcases le_total (5000 * 2 ^ n) 60000 with h | h
      · rw [min_eq_right h, mul_assoc]
      · have h2 : (60000 : ℕ) ≤ 5000 * (2 ^ n * 2) := by
          rw [← mul_assoc]; omega
        rw [min_eq_left h, min_eq_left h2,
          min_eq_left (by norm_num : (60000 : ℕ) ≤ 60000 * 2)]

/-- C4: each close of a regional push socket schedules (and stores) the
delay `min(60000, shared · 2)`; starting from the 5000 ms floor, the delay
after `n + 1` consecutive failures is exactly `min(60000, 5000 · 2^(n+1))` —
monotone non-decreasing in the number of consecutive failures and never
above the 60-second ceiling — and any successful open resets the stored
delay to the 5-second floor. -/
theorem C4_backoff (n : Nat) (f : WolfxFeed) (st : WolfxState) :
    ((onWolfxClose f st).1 = min 60000 (st.backoffMs * 2) ∧
      (onWolfxClose f st).2.backoffMs = (onWolfxClose f st).1) ∧
    delayAfterFailures (n + 1) = min 60000 (5000 * 2 ^ (n + 1)) ∧
    delayAfterFailures n ≤ delayAfterFailures (n + 1) ∧
    delayAfterFailures (n + 1) ≤ 60000 ∧
    delayAfterFailures 0 = 5000 ∧
    (onWolfxOpen f st).backoffMs = 5000 := by
  refine ⟨⟨rfl, ?_⟩, delayAfterFailures_closed (n + 1), ?_, delayAfterFailures_le (n + 1),
    rfl, ?_⟩
  · cases f <;> rfl
  · show delayAfterFailures n ≤ min 60000 (delayAfterFailures n * 2)
    exact le_min (delayAfterFailures_le n) (by omega)
  · cases f <;> rfl

/-- C10: the three regional connectors share one next-retry-delay variable:
a close on any socket stores the same doubled, 60-second-capped delay
regardless of which socket closed; the delay scheduled by whichever socket
closes next is the capped double of that shared value; and a successful
open on any socket resets the shared value to 5000 ms, so the next close on
any of the three schedules 10000 ms. -/
theorem C10_shared_backoff (f g : WolfxFeed) (st : WolfxState) :
    ((onWolfxClose f st).2.backoffMs = (onWolfxClose g st).2.backoffMs) ∧
    ((onWolfxClose g (onWolfxClose f st).2).1 =
      min 60000 (min 60000 (st.backoffMs * 2) * 2)) ∧
    ((onWolfxOpen f st).backoffMs = 5000) ∧
    ((onWolfxClose g (onWolfxOpen f st)).1 = 10000) := by
  refine ⟨?_, ?_, ?_, ?_⟩
  · cases f <;> cases g <;> rfl
  · cases f <;> cases g <;> rfl
  · cases f <;> rfl
  · cases f <;> cases g <;>
      · show min 60000 (5000 * 2) = 10000
        norm_num

/-! ## Scraped KMA table feed (`src/pages/api/kma.ts`, `handler` row loop) -/

/-- Numeric value of a list of decimal digit characters, most significant
first. -/
def digitsVal (cs : List Char) : Nat :=
  cs.foldl (fun n c => n * 10 + (c.toNat - 48)) 0

/-- Read exactly `n` decimal digits off the front of the character list,
accumulating their value; `none` when fewer than `n` digits are present. -/
def takeDigitsAux : Nat → Nat → List Char → Option (Nat × List Char)
  | 0, acc, cs => some (acc, cs)
  | n + 1, acc, c :: cs =>
      if c.isDigit then takeDigitsAux n (acc * 10 + (c.toNat - 48)) cs else none
  | _ + 1, _, [] => none

def takeDigits (n : Nat) (cs : List Char) : Option (Nat × List Char) :=
  takeDigitsAux n 0 cs

/-- Consume one expected literal character. -/
def expectChar (c : Char) : List Char → Option (List Char)
  | d :: cs => if d = c then some cs else none
  | [] => none

/-- Consume one-or-more whitespace characters (the `\s+` of the timestamp
pattern). -/
def skipWs1 : List Char → Option (List Char)
  | c :: cs => if c.isWhitespace then some (cs.dropWhile Char.isWhitespace) else none
  | [] => none

/-- The six captured fields of the KMA timestamp pattern
`^(\d{4})/(\d{2})/(\d{2})\s+(\d{2}):(\d{2}):(\d{2})$`. -/
structure KstTime where
  year : Nat
  month : Nat
  day : Nat
  hour : Nat
  minute : Nat
  second : Nat
deriving DecidableEq

/-- Match the full timestamp pattern against a (trimmed) character list:
4 digits, `/`, 2 digits, `/`, 2 digits, whitespace, 2 digits, `:`,
2 digits, `:`, 2 digits, end of input. -/
def matchKstShape (cs : List Char) : Option KstTime := do
  let (y, cs) ← takeDigits 4 cs
  let cs ← expectChar '/' cs
  let (mo, cs) ← takeDigits 2 cs
  let cs ← expectChar '/' cs
  let (d, cs) ← takeDigits 2 cs
  let cs ← skipWs1 cs
  let (hh, cs) ← takeDigits 2 cs
  let cs ← expectChar ':' cs
  let (mi, cs) ← takeDigits 2 cs
  let cs ← expectChar ':' cs
  let (ss, cs) ← takeDigits 2 cs
  if cs = [] then some ⟨y, mo, d, hh, mi, ss⟩ else none

def isLeapYear (y : Nat) : Bool :=
  decide ((y % 4 = 0 ∧ y % 100 ≠ 0) ∨ y % 400 = 0)

def daysInMonth (y mo : Nat) : Nat :=
  if mo = 2 then (if isLeapYear y then 29 else 28)
  else if mo = 4 ∨ mo = 6 ∨ mo = 9 ∨ mo = 11 then 30
  else 31

/-- Validity of the captured fields as checked by
`new Date("y-mo-dThh:mi:ss+09:00")` returning a non-NaN time value: a real
calendar date with an in-range time of day (ECMAScript also accepts the
`24:00:00` end-of-day form). -/
def validDateTime (t : KstTime) : Bool :=
  decide (1 ≤ t.month ∧ t.month ≤ 12 ∧ 1 ≤ t.day ∧ t.day ≤ daysInMonth t.year t.month ∧
    ((t.hour ≤ 23 ∧ t.minute ≤ 59 ∧ t.second ≤ 59) ∨
      (t.hour = 24 ∧ t.minute = 0 ∧ t.second = 0)))

/-- `parseKstToIsoUtc`: trim the input, match the fixed timestamp pattern,
and reject field combinations on which the `Date` constructor yields NaN.
The source then renders the accepted instant as an ISO UTC string (the KST
value shifted by −9 h) — an injective function of the six fields, so the
validated `KstTime` itself is returned here in its place. -/
def parseKstToIsoUtc (input : String) : Option KstTime :=
  match matchKstShape input.trim.toList with
  | some t => if validDateTime t then some t else none
  | none => none

/-- Exponent suffix of a JS decimal literal (`e`/`E` already consumed):
optional sign then one-or-more digits. -/
def parseExpPart (cs : List Char) : Option Int :=
  let (sgn, cs1) : Int × List Char := match cs with
    | '+' :: r => (1, r)
    | '-' :: r => (-1, r)
    | _ => (1, cs)
  let ds := cs1.takeWhile Char.isDigit
  if ds = [] then none else some (sgn * (digitsVal ds : Int))

/-- `Number.parseFloat`: skip leading whitespace, then parse the longest
prefix of the form `[+-]? (digits [. digits?] | . digits) ([eE][+-]?digits)?`
exactly; `none` models a NaN result (no digits at all; non-finite inputs
such as `Infinity` are likewise mapped to `none`, matching the
`Number.isFinite` guards at every call site in the source). -/
def jsParseFloat (s : String) : Option ℚ :=
  let cs := s.toList.dropWhile Char.isWhitespace
  let (sgn, cs1) : ℚ × List Char := match cs with
    | '+' :: r => (1, r)
    | '-' :: r => (-1, r)
    | _ => (1, cs)
  let ip := cs1.takeWhile Char.isDigit
  let cs2 := cs1.dropWhile Char.isDigit
  let (fp, cs3) : List Char × List Char := match cs2 with
    | '.' :: r => (r.takeWhile Char.isDigit, r.dropWhile Char.isDigit)
    | _ => ([], cs2)
  if ip = [] ∧ fp = [] then none
  else
    let mantissa : ℚ := (digitsVal ip : ℚ) + (digitsVal fp : ℚ) / 10 ^ fp.length
    let ex : Int := match cs3 with
      | c :: r => if c = 'e' ∨ c = 'E' then (parseExpPart r).getD 0 else 0
      | [] => 0
    some (sgn * mantissa * (10 : ℚ) ^ ex)

/-- `t.replace(/[NS]/g, '').trim()` applied to the trimmed input: the
argument handed to `Number.parseFloat` inside `parseLat`. -/
def stripNS (text : String) : String :=
  (String.mk (text.trim.toList.filter (fun c => (c != 'N') && (c != 'S')))).trim

/-- `t.replace(/[EW]/g, '').trim()` applied to the trimmed input: the
argument handed to `Number.parseFloat` inside `parseLng`. -/
def stripEW (text : String) : String :=
  (String.mk (text.trim.toList.filter (fun c => (c != 'E') && (c != 'W')))).trim

/-- `parseLat`: sign −1 exactly when the trimmed text contains `'S'`
(`t.includes('S')`), applied to the parsed number; `none` when the number
does not parse. -/
def parseLat (text : String) : Option ℚ :=
  let t := text.trim
  let ns : ℚ := if t.contains 'S' then -1 else 1
  (jsParseFloat (stripNS text)).map (fun v => ns * v)

/-- `parseLng`: sign −1 exactly when the trimmed text contains `'W'`
(`t.includes('W')`). -/
def parseLng (text : String) : Option ℚ :=
  let ew : ℚ := if text.trim.contains 'W' then -1 else 1
  (jsParseFloat (stripEW text)).map (fun v => ew * v)

/-- A parsed KMA table row (`KmaEarthquake` in `kma.ts`); `time` is the
validated timestamp (see `parseKstToIsoUtc`). -/
structure KmaEarthquake where
  time : KstTime
  location : String
  depth : ℚ
  magnitude : ℚ
  intensity : Int
  latitude : Option ℚ
  longitude : Option ℚ
  intensityText : Option String
deriving DecidableEq

/-- The body of the row loop of the KMA `handler`: cell texts are read from
the fixed column positions 1–7 (`get(idx)`, modeled by `getD idx ""` plus
trim, matching `$(tds[idx])?.text()?.trim() ?? ''`); a row with no cells or
an unparsable timestamp is skipped (`if (!iso) return`); `magnitude` and
`depth` fall back to `0` when unparsable, coordinates to `null`;
`intensity` is always the sentinel `-1`; the raw intensity text is carried
in `intensityText` (absent when empty); an empty location falls back to
`"대한민국"`. -/
def parseRow (tds : List String) : Option KmaEarthquake :=
  if tds.length = 0 then none
  else
    match parseKstToIsoUtc ((tds.getD 1 "").trim) with
    | none => none
    | some iso =>
        some { time := iso,
               location := if (tds.getD 7 "").trim = "" then "대한민국" else (tds.getD 7 "").trim,
               depth := (jsParseFloat ((tds.getD 3 "").trim)).getD 0,
               magnitude := (jsParseFloat ((tds.getD 2 "").trim)).getD 0,
               intensity := -1,
               latitude := parseLat ((tds.getD 5 "").trim),
               longitude := parseLng ((tds.getD 6 "").trim),
               intensityText :=
                 if (tds.getD 4 "").trim = "" then none else some ((tds.getD 4 "").trim) }

/-- The row loop of the KMA `handler` over the scraped table rows (each row
the list of its cell texts).  The handler afterwards sorts the produced
events by time descending, which affects none of the properties proved
below. -/
def kmaParseRows (rows : List (List String)) : List KmaEarthquake :=
  rows.filterMap parseRow

theorem parseRow_intensity (tds : List String) (e : KmaEarthquake)
    (h : parseRow tds = some e) : e.intensity = -1 := by
  unfold parseRow at h
  split at h
  · exact absurd h (by simp)
  · split at h
    · exact absurd h (by simp)
    · simp only [Option.some.injEq] at h
      subst h
      rfl

/-- C9: for the scraped HTML table rows: a row whose timestamp does not
parse is dropped silently and contributes no event; the parsed latitude is
sign-inverted exactly when the string contains the hemisphere letter `S`,
and the parsed longitude exactly when it contains `W`; fields are taken
from the fixed column positions 1–7; and every produced event carries the
sentinel `intensity = -1` instead of a numeric intensity code. -/
theorem C9_kma_rows (rows1 rows2 : List (List String)) (tds : List String)
    (s : String) (v : ℚ) :
    (parseKstToIsoUtc ((tds.getD 1 "").trim) = none →
      kmaParseRows (rows1 ++ tds :: rows2) = kmaParseRows (rows1 ++ rows2)) ∧
    (jsParseFloat (stripNS s) = some v →
      parseLat s = some (if s.trim.contains 'S' then -v else v)) ∧
    (jsParseFloat (stripEW s) = some v →
      parseLng s = some (if s.trim.contains 'W' then -v else v)) ∧
    (∀ e ∈ kmaParseRows rows1, e.intensity = -1) ∧
    (tds ≠ [] → ∀ t, parseKstToIsoUtc ((tds.getD 1 "").trim) = some t →
      ∃ e, parseRow tds = some e ∧
        e.time = t ∧
        e.magnitude = (jsParseFloat ((tds.getD 2 "").trim)).getD 0 ∧
        e.depth = (jsParseFloat ((tds.getD 3 "").trim)).getD 0 ∧
        e.latitude = parseLat ((tds.getD 5 "").trim) ∧
        e.longitude = parseLng ((tds.getD 6 "").trim) ∧
        e.location =
          (if (tds.getD 7 "").trim = "" then "대한민국" else (tds.getD 7 "").trim) ∧
        e.intensityText =
          (if (tds.getD 4 "").trim = "" then none else some ((tds.getD 4 "").trim)) ∧
        e.intensity = -1) := by
  refine ⟨?_, ?_, ?_, ?_, ?_⟩
  · intro hnone
    have hrow : parseRow tds = none := by
      unfold parseRow
      split
      · rfl
      · rw [hnone]
    simp [kmaParseRows, List.filterMap_append, List.filterMap_cons, hrow]
  · intro hv
    unfold parseLat
    rw [hv]
    by_cases hS : s.trim.contains 'S'
    · simp [hS, neg_one_mul]
    · simp [hS]
  · intro hv
    unfold parseLng
    rw [hv]
    by_cases hW : s.trim.contains 'W'
    · simp [hW, neg_one_mul]
    · simp [hW]
  · intro e he
    obtain ⟨row, _, hrow⟩ := List.mem_filterMap.mp he
    exact parseRow_intensity row e hrow
  · intro hne t ht
    have h0 : ¬ tds.length = 0 := by
      simpa [List.length_eq_zero] using hne
    refine ⟨{ time := t,
              location := if (tds.getD 7 "").trim = "" then "대한민국" else (tds.getD 7 "").trim,
              depth := (jsParseFloat ((tds.getD 3 "").trim)).getD 0,
              magnitude := (jsParseFloat ((tds.getD 2 "").trim)).getD 0,
              intensity := -1,
              latitude := parseLat ((tds.getD 5 "").trim),
              longitude := parseLng ((tds.getD 6 "").trim),
              intensityText :=
                if (tds.getD 4 "").trim = "" then none else some ((tds.getD 4 "").trim) },
      ?_, rfl, rfl, rfl, rfl, rfl, rfl, rfl, rfl⟩
    unfold parseRow
    rw [if_neg h0, ht]

/-- C9 witness: the row theorem at a concrete row with a bad timestamp and
a concrete hemisphere string `"36.50 S"` (which parses to 73/2). -/
theorem C9_kma_rows_witness :
    (parseKstToIsoUtc (((["x", "oops"] : List String).getD 1 "").trim) = none →
      kmaParseRows ([] ++ ["x", "oops"] :: []) = kmaParseRows ([] ++ [])) ∧
    (jsParseFloat (stripNS "36.50 S") = some (73 / 2) →
      parseLat "36.50 S" =
        some (if "36.50 S".trim.contains 'S' then -(73 / 2) else (73 / 2 : ℚ))) ∧
    (jsParseFloat (stripEW "36.50 S") = some (73 / 2) →
      parseLng "36.50 S" =
        some (if "36.50 S".trim.contains 'W' then -(73 / 2) else (73 / 2 : ℚ))) ∧
    (∀ e ∈ kmaParseRows [], e.intensity = -1) ∧
    ((["x", "oops"] : List String) ≠ [] → ∀ t,
      parseKstToIsoUtc (((["x", "oops"] : List String).getD 1 "").trim) = some t →
      ∃ e, parseRow ["x", "oops"] = some e ∧
        e.time = t ∧
        e.magnitude = (jsParseFloat (((["x", "oops"] : List String).getD 2 "").trim)).getD 0 ∧
        e.depth = (jsParseFloat (((["x", "oops"] : List String).getD 3 "").trim)).getD 0 ∧
        e.latitude = parseLat (((["x", "oops"] : List String).getD 5 "").trim) ∧
        e.longitude = parseLng (((["x", "oops"] : List String).getD 6 "").trim) ∧
        e.location =
          (if ((["x", "oops"] : List String).getD 7 "").trim = "" then "대한민국"
           else ((["x", "oops"] : List String).getD 7 "").trim) ∧
        e.intensityText =
          (if ((["x", "oops"] : List String).getD 4 "").trim = "" then none
           else some (((["x", "oops"] : List String).getD 4 "").trim)) ∧
        e.intensity = -1) :=
  C9_kma_rows [] [] ["x", "oops"] "36.50 S" (73 / 2)
